import Mathlib

/-!
Verification development for the batch video-assembly job in `job_main.py`.

The Python source is embedded shallowly: pure decision logic (identifier
parsing, download validation, the resolution check, music-loop arithmetic,
publication configuration) is translated directly; the external `ffmpeg` /
`ffprobe` invocations are modelled by the file metadata they are documented
to produce, with each model's doc comment naming the exact command it
abstracts.  Strings are modelled as `List Char` where character-level
reasoning is needed.
-/

namespace VideoJob

/-! ### Character class and pattern search (`parse_drive_id`) -/

/-- The character class `[A-Za-z0-9_-]` used by all three regexes in
`parse_drive_id`. -/
def isIdChar (c : Char) : Bool :=
  ('A' ≤ c && c ≤ 'Z') || ('a' ≤ c && c ≤ 'z') || ('0' ≤ c && c ≤ '9') ||
    c == '-' || c == '_'

/-- A literal pattern: one equality test per character. -/
def litPat (s : List Char) : List (Char → Bool) :=
  s.map (fun c => fun d => d == c)

/-- The pattern `/file/d/` of the first `re.search` in `parse_drive_id`. -/
def fileDPat : List (Char → Bool) := litPat "/file/d/".data

/-- The pattern `[?&]id=` of the second `re.search` in `parse_drive_id`. -/
def queryPat : List (Char → Bool) :=
  (fun c => c == '?' || c == '&') :: litPat "id=".data

/-- Does the whole list match the pattern position by position? -/
def matchList : List (Char → Bool) → List Char → Bool
  | [], [] => true
  | p :: ps, c :: cs => p c && matchList ps cs
  | _, _ => false

/-- Does some prefix of the list match the pattern position by position? -/
def matchesPref : List (Char → Bool) → List Char → Bool
  | [], _ => true
  | _ :: _, [] => false
  | p :: ps, c :: cs => p c && matchesPref ps cs

/-- Leftmost-match search for `pat` followed by at least one id character,
returning the maximal id-character run after the matched pattern: the
behaviour of `re.search(pat + "([A-Za-z0-9_-]+)", s)`. -/
def searchPat (pat : List (Char → Bool)) : List Char → Option (List Char)
  | [] => none
  | c :: cs =>
    if matchesPref pat (c :: cs) &&
        !(((c :: cs).drop pat.length).takeWhile isIdChar).isEmpty then
      some (((c :: cs).drop pat.length).takeWhile isIdChar)
    else
      searchPat pat cs

/-- `parse_drive_id` from `job_main.py`: a full match of `[A-Za-z0-9_-]` with
at least 20 characters is returned whole; otherwise search for
`/file/d/([A-Za-z0-9_-]+)` and then `[?&]id=([A-Za-z0-9_-]+)`; `none` models
the `ValueError` (`InvalidIdentifier`). -/
def parse_drive_id (s : List Char) : Option (List Char) :=
  if s.all isIdChar && decide (20 ≤ s.length) then some s
  else
    match searchPat fileDPat s with
    | some r => some r
    | none => searchPat queryPat s

/-- Spec-side reading of the bare-id pattern: every character in the
restricted class and length at least 20. -/
def IsBareId (s : List Char) : Prop :=
  s.all isIdChar = true ∧ 20 ≤ s.length

/-- Spec-side reading of "the string contains an occurrence of the pattern
followed by at least one id character". -/
def ContainsPat (pat : List (Char → Bool)) (s : List Char) : Prop :=
  ∃ pre mid c post, s = pre ++ mid ++ c :: post ∧
    matchList pat mid = true ∧ isIdChar c = true

/-! ### Errors and download validation -/

/-- The failure taxonomy of the job, naming the `RuntimeError` raises in the
source by their spec names. -/
inductive JobError
  | invalidIdentifier
  | emptyOrCorruptDownload
  | assetMissingOrEmpty
  | driveFolderUnset
deriving DecidableEq

/-- The check at the end of `dl_drive`: `if not dest.exists() or
dest.stat().st_size == 0: raise RuntimeError("Downloaded 0 bytes from
Drive")`. -/
def drive_dl_check (ex : Bool) (size : Nat) : Except JobError Unit :=
  if ex = false ∨ size = 0 then Except.error JobError.emptyOrCorruptDownload
  else Except.ok ()

/-- The check at the end of `dl_gcs`: `if not dest.exists() or
dest.stat().st_size == 0: raise RuntimeError("GCS object empty: ...")`. -/
def gcs_dl_check (ex : Bool) (size : Nat) : Except JobError Unit :=
  if ex = false ∨ size = 0 then Except.error JobError.emptyOrCorruptDownload
  else Except.ok ()

/-- Existence flag and byte size of each of the four downloaded files. -/
structure Downloads where
  mainExists : Bool
  mainSize : Nat
  bgExists : Bool
  bgSize : Nat
  outroExists : Bool
  outroSize : Nat
  musicExists : Bool
  musicSize : Nat
deriving DecidableEq

/-- The acquisition phase of `process`: the four downloads (each with its
per-download emptiness check) followed by the "Basic checks" loop
(`for p in (main, bg, outro, music): if not p.exists() or p.stat().st_size
== 0: raise`). -/
def acquisition (dl : Downloads) : Except JobError Unit :=
  match drive_dl_check dl.mainExists dl.mainSize with
  | Except.error e => Except.error e
  | Except.ok _ =>
    match gcs_dl_check dl.bgExists dl.bgSize with
    | Except.error e => Except.error e
    | Except.ok _ =>
      match gcs_dl_check dl.outroExists dl.outroSize with
      | Except.error e => Except.error e
      | Except.ok _ =>
        match gcs_dl_check dl.musicExists dl.musicSize with
        | Except.error e => Except.error e
        | Except.ok _ =>
          if (dl.mainExists = false ∨ dl.mainSize = 0) ∨
              (dl.bgExists = false ∨ dl.bgSize = 0) ∨
              (dl.outroExists = false ∨ dl.outroSize = 0) ∨
              (dl.musicExists = false ∨ dl.musicSize = 0) then
            Except.error JobError.assetMissingOrEmpty
          else Except.ok ()

/-! ### Media file model -/

/-- Metadata of an audio stream as the pipeline's probes and encoders see
it. -/
structure AudioMeta where
  channels : Nat
  sampleRate : Nat
  codec : String
  bitrate : String
  duration : ℚ
deriving DecidableEq

/-- A local media file: the metadata `ffprobe` reports and the later stages
read.  `audio = none` models a container with no audio stream. -/
structure AVFile where
  width : Nat
  height : Nat
  vcodec : String
  pixfmt : String
  audio : Option AudioMeta
  duration : ℚ
deriving DecidableEq

/-- `get_video_resolution`: the first video stream's declared width and
height. -/
def get_video_resolution (f : AVFile) : Nat × Nat := (f.width, f.height)

/-- `has_audio`: true iff at least one audio stream is present. -/
def has_audio (f : AVFile) : Bool := f.audio.isSome

/-- The exact argument list built by `add_silent_audio` in the source. -/
def add_silent_audio_args (src dst : String) : List String :=
  ["-y", "-i", src, "-f", "lavfi", "-i",
   "anullsrc=channel_layout=stereo:sample_rate=44100", "-shortest",
   "-c:v", "copy", "-c:a", "aac", "-b:a", "192k", dst]

/-- The value following a flag in an ffmpeg argument list. -/
def argAfter (flag : String) : List String → Option String
  | [] => none
  | [_] => none
  | a :: b :: rest => if a = flag then some b else argAfter flag (b :: rest)

/-- Models the ffmpeg run of `add_silent_audio`: the `anullsrc` lavfi source
is silent stereo at 44100 Hz, `-shortest` ends the generated audio at the
video stream's end, `-c:v copy` leaves the video stream untouched and
`-c:a aac -b:a 192k` encodes the audio. -/
def add_silent_audio (f : AVFile) : AVFile :=
  { f with audio := some { channels := 2, sampleRate := 44100, codec := "aac",
                           bitrate := "192k", duration := f.duration } }

/-- The conditional around `add_silent_audio` in `process`:
`if not has_audio(main): add_silent_audio(main, ...); main = ...`. -/
def ensure_audio (f : AVFile) : AVFile :=
  if has_audio f then f else add_silent_audio f

/-! ### Geometry normalization and pre-scaling -/

/-- The `-vf` filter string used for the main clip, the background and the
outro in the source. -/
def scale_pad_vf : String :=
  "scale=1920:1080:force_original_aspect_ratio=decrease,pad=1920:1080:(ow-iw)/2:(oh-ih)/2,format=yuv420p"

/-- Models `scale=1920:1080:force_original_aspect_ratio=decrease`: the frame
is scaled preserving aspect ratio so that it fits inside 1920x1080. -/
def scale_fit (w h : Nat) : Nat × Nat :=
  if 1920 * h ≤ 1080 * w then (1920, h * 1920 / w) else (w * 1080 / h, 1080)

/-- Models `pad=1920:1080:(ow-iw)/2:(oh-ih)/2`: the canvas is grown (never
shrunk) to the padding target, centring the input. -/
def pad_1920_1080 (w h : Nat) : Nat × Nat := (max 1920 w, max 1080 h)

/-- Models one pass of the scale-pad-format recipe (the shared `-vf` chain
ending in `format=yuv420p`, encoded with libx264). -/
def scale_pad_core (f : AVFile) : AVFile :=
  { f with
    width := (pad_1920_1080 (scale_fit f.width f.height).1
                (scale_fit f.width f.height).2).1,
    height := (pad_1920_1080 (scale_fit f.width f.height).1
                (scale_fit f.width f.height).2).2,
    vcodec := "libx264",
    pixfmt := "yuv420p" }

/-- The main-clip geometry step of `process`: `w, h = get_video_resolution
(main); if h != 720:` scale-pad to 1920x1080 with `-c:a aac -b:a 192k`,
`else` keep the file as is. -/
def normalize_geometry (f : AVFile) : AVFile :=
  if f.height ≠ 720 then
    { scale_pad_core f with
      audio := f.audio.map (fun a => { a with codec := "aac", bitrate := "192k" }) }
  else f

/-- Pre-scaling of the background in `process`: the scale-pad recipe with
`-an`, stripping any audio. -/
def prescale_bg (f : AVFile) : AVFile :=
  { scale_pad_core f with audio := none }

/-- Pre-scaling of the outro in `process`: the scale-pad recipe keeping any
audio re-encoded with `-c:a aac -b:a 128k`. -/
def prescale_outro (f : AVFile) : AVFile :=
  { scale_pad_core f with
    audio := f.audio.map (fun a => { a with codec := "aac", bitrate := "128k" }) }

/-! ### Composition, music looping, mixing, mux -/

/-- The smaller of two rationals, by the order's decision procedure. -/
def qmin (a b : ℚ) : ℚ := if a ≤ b then a else b

/-- The larger of two rationals, by the order's decision procedure. -/
def qmax (a b : ℚ) : ℚ := if a ≤ b then b else a

/-- Models the video filter graph of `process` (`overlay=...:shortest=1`
then `concat=n=2:v=1:a=0`): the overlay segment ends with the shorter of
foreground and background, the outro is appended, dimensions are the
background's, no audio is mapped (`-an`). -/
def compose_video (main bg outro : AVFile) : AVFile :=
  { width := bg.width, height := bg.height, vcodec := "libx264",
    pixfmt := bg.pixfmt, audio := none,
    duration := qmin main.duration bg.duration + outro.duration }

/-- The two branches of the music preparation in `process`: either the bed
is re-encoded as is, or it is looped `-stream_loop loops` and cut at
`-t trim`. -/
inductive MusicRecipe
  | reencode
  | loopTrim (loops : ℤ) (trim : ℚ)
deriving DecidableEq

/-- Python `max(1.0, q)`. -/
def py_max_one (q : ℚ) : ℚ := if q ≤ 1 then 1 else q

/-- `loops = max(1, int((main_dur // max(1.0, music_dur)) + 1))`: Python's
float floor-division is the mathematical floor, and `int` of the resulting
integral float is exact. -/
def music_loops (main_dur music_dur : ℚ) : ℤ :=
  if Rat.floor (main_dur / py_max_one music_dur) + 1 ≤ 1 then 1
  else Rat.floor (main_dur / py_max_one music_dur) + 1

/-- The music branch of `process`: `if music_dur >= main_dur or main_dur ==
0:` re-encode as is, `else` loop with `loops = max(1, int((main_dur //
max(1.0, music_dur)) + 1))` and trim with `-t (main_dur + 1)`. -/
def music_recipe (main_dur music_dur : ℚ) : MusicRecipe :=
  if music_dur ≥ main_dur ∨ main_dur = 0 then MusicRecipe.reencode
  else MusicRecipe.loopTrim (music_loops main_dur music_dur) (main_dur + 1)

/-- The `-filter_complex` string of the audio mixing call in the source. -/
def audio_mix_filter : String := "amix=inputs=2:normalize=0"

/-- Split a character list at every occurrence of `sep`. -/
def splitOn (sep : Char) : List Char → List (List Char)
  | [] => [[]]
  | c :: cs =>
    if c == sep then [] :: splitOn sep cs
    else
      match splitOn sep cs with
      | [] => [[c]]
      | x :: xs => (c :: x) :: xs

/-- Split a character list at the first occurrence of `sep` into a key and
a value. -/
def splitFirst (sep : Char) : List Char → List Char × List Char
  | [] => ([], [])
  | c :: cs =>
    if c == sep then ([], cs)
    else ((c :: (splitFirst sep cs).1), (splitFirst sep cs).2)

/-- Whether an `amix=...` filter spec leaves the amix `normalize` option
enabled: ffmpeg's option is on by default and is turned off by
`normalize=0`. -/
def amix_normalize_enabled (f : List Char) : Bool :=
  if matchesPref (litPat "amix=".data) f then
    match ((splitOn ':' (f.drop 5)).map (splitFirst '=')).find?
        (fun kv => kv.1 == "normalize".data) with
    | some kv => !(kv.2 == "0".data)
    | none => true
  else true

/-- Models one output sample of ffmpeg's `amix` on two inputs: with
normalization enabled every input is scaled by the input count (an average);
with it disabled the inputs are summed unscaled. -/
def amix_sample (normalize : Bool) (a b : ℚ) : ℚ :=
  if normalize then (a + b) / 2 else a + b

/-- Models the duration of the looped music file: `-stream_loop n` plays the
input `n + 1` times and `-t trim` cuts the output at `trim`. -/
def looped_music_duration (music_dur : ℚ) : MusicRecipe → ℚ
  | MusicRecipe.reencode => music_dur
  | MusicRecipe.loopTrim loops trim => qmin ((loops + 1) * music_dur) trim

/-- Models the audio mixing call of `process`: main audio and the looped
music through `amix=inputs=2:normalize=0` (default `duration=longest`),
written as an audio-only aac file. -/
def mix_audio (mainF : AVFile) (music_dur : ℚ) : AVFile :=
  { width := 0, height := 0, vcodec := "", pixfmt := "",
    audio := some { channels := 2, sampleRate := 44100, codec := "aac",
                    bitrate := "192k",
                    duration := qmax mainF.duration
                      (looped_music_duration music_dur
                        (music_recipe mainF.duration music_dur)) },
    duration := qmax mainF.duration
      (looped_music_duration music_dur (music_recipe mainF.duration music_dur)) }

/-- Models the final mux (`-c:v copy -c:a copy`): the video stream of the
first input and the audio stream of the second, container duration the
longer of the two. -/
def mux (v a : AVFile) : AVFile :=
  { width := v.width, height := v.height, vcodec := v.vcodec,
    pixfmt := v.pixfmt, audio := a.audio,
    duration := qmax v.duration a.duration }

/-! ### Publication -/

/-- The environment-derived configuration read at the top of the source. -/
structure Env where
  drive_output_folder_id : Option String
  skip_drive_upload : Bool
  gcs_outputs_bucket : String
  gcs_outputs_pfx : String
deriving DecidableEq

/-- Python truthiness of an optional string: false for `None` and for the
empty string. -/
def truthyOpt : Option String → Bool
  | none => false
  | some s => !(s == "")

/-- The result record `{"drive": None, "gcs": None, "youtube": None}` of
`process`, with each sink's returned identifier. -/
structure PubResult where
  drive : Option String
  gcs : Option String
  youtube : Option String
deriving DecidableEq

/-- The URL built for an uploaded video in `upload_youtube`. -/
def youtube_url (vid : String) : String := "https://youtu.be/" ++ vid

/-- The guard at the top of `upload_drive`: `if not DRIVE_OUTPUT_FOLDER_ID:
raise RuntimeError(...)`; on success the Drive API's file id is returned. -/
def upload_drive_step (env : Env) (driveId : String) : Except JobError String :=
  if truthyOpt env.drive_output_folder_id then Except.ok driveId
  else Except.error JobError.driveFolderUnset

/-- Python `str.strip("/")`: remove `/` characters from both ends. -/
def stripSlashes (s : String) : String :=
  String.mk (((s.data.dropWhile (fun c => c == '/')).reverse.dropWhile
    (fun c => c == '/')).reverse)

/-- The object name built in `process`: `oid = (result["drive"]["id"] if
result["drive"] else final_out.stem) + ".mp4"` with `final_out.stem =
"final_output"`, then the key `GCS_OUTPUTS_PREFIX.strip("/") + "/" + oid`. -/
def gcs_object_key (pfx : String) (driveRes : Option String) : String :=
  stripSlashes pfx ++ "/" ++
    ((match driveRes with
      | some i => i
      | none => "final_output") ++ ".mp4")

/-- `upload_gcs`: returns `None` when the outputs bucket is empty, else the
`gs://bucket/object` locator. -/
def upload_gcs (bucket object_name : String) : Option String :=
  if bucket = "" then none else some ("gs://" ++ bucket ++ "/" ++ object_name)

/-- The outcome of the youtube thumbnail-set call, an external effect. -/
def set_thumbnail (succeeds : Bool) : Except Unit Unit :=
  if succeeds then Except.ok () else Except.error ()

/-- The id and url dictionary returned by `upload_youtube`. -/
structure YTResult where
  id : String
  url : String
deriving DecidableEq

/-- `upload_youtube`: after the video insert succeeds with id `vid`, the
thumbnail (when provided) is set inside `try: ... except Exception: pass`,
and the id and url are returned regardless. -/
def upload_youtube (vid : String) (thumbnail : Option String)
    (thumbOk : Bool) : YTResult :=
  match thumbnail with
  | some _ =>
    match set_thumbnail thumbOk with
    | Except.ok _ => { id := vid, url := youtube_url vid }
    | Except.error _ => { id := vid, url := youtube_url vid }
  | none => { id := vid, url := youtube_url vid }

/-- The upload block at the end of `process`: Drive upload unless skipped
(fatal if the folder id is unset), the object-store upload when both bucket
and prefix are non-empty, and the youtube upload when a title was given. -/
def publication (env : Env) (driveId : String) (title thumb : Option String)
    (thumbOk : Bool) (ytVid : String) : Except JobError PubResult :=
  match (if env.skip_drive_upload then Except.ok none
         else Except.map some (upload_drive_step env driveId)) with
  | Except.error e => Except.error e
  | Except.ok driveRes =>
    let gcsRes :=
      if env.gcs_outputs_bucket ≠ "" ∧ env.gcs_outputs_pfx ≠ "" then
        upload_gcs env.gcs_outputs_bucket
          (gcs_object_key env.gcs_outputs_pfx driveRes)
      else none
    let ytRes :=
      if truthyOpt title then
        some (upload_youtube ytVid thumb thumbOk).url
      else none
    Except.ok { drive := driveRes, gcs := gcsRes, youtube := ytRes }

/-! ### The whole job -/

/-- The data a single `process` run consumes: download outcomes, the probed
metadata of the four assets, and the identifiers the upload APIs return. -/
structure JobInputs where
  dl : Downloads
  main : AVFile
  bg : AVFile
  outro : AVFile
  music_dur : ℚ
  drive_file_id : String
  yt_video_id : String
deriving DecidableEq

/-- The composed and muxed final file of `process`, built from the
normalized main clip, the pre-scaled background and outro and the mixed
audio track. -/
def final_artifact (inp : JobInputs) : AVFile :=
  mux
    (compose_video (normalize_geometry (ensure_audio inp.main))
      (prescale_bg inp.bg) (prescale_outro inp.outro))
    (mix_audio (normalize_geometry (ensure_audio inp.main)) inp.music_dur)

deriving instance DecidableEq for Except

/-- The outcome of a `process` run: the final artifact when the media
pipeline completed, and the job's result or error. -/
structure ProcOutcome where
  artifact : Option AVFile
  result : Except JobError PubResult
deriving DecidableEq

/-- `process` end to end: parse the Drive identifier, acquire and validate
the four assets, run the (always-succeeding, modelled) media pipeline, then
publish. -/
def process (env : Env) (url : List Char) (inp : JobInputs)
    (title thumb : Option String) (thumbOk : Bool) : ProcOutcome :=
  match parse_drive_id url with
  | none => { artifact := none, result := Except.error JobError.invalidIdentifier }
  | some _ =>
    match acquisition inp.dl with
    | Except.error e => { artifact := none, result := Except.error e }
    | Except.ok _ =>
      { artifact := some (final_artifact inp),
        result := publication env inp.drive_file_id title thumb thumbOk
                    inp.yt_video_id }


/-- A concrete environment with the Drive sink enabled (not skipped) but the
output folder id unset. -/
def env_noFolder : Env :=
  { drive_output_folder_id := none, skip_drive_upload := false,
    gcs_outputs_bucket := "", gcs_outputs_pfx := "" }

/-- Concrete job inputs whose four downloads all exist with nonzero sizes. -/
def sample_inputs : JobInputs :=
  { dl := { mainExists := true, mainSize := 2000000, bgExists := true,
            bgSize := 3000000, outroExists := true, outroSize := 1500000,
            musicExists := true, musicSize := 1200000 },
    main := { width := 1280, height := 716, vcodec := "h264",
              pixfmt := "yuv420p",
              audio := some { channels := 2, sampleRate := 44100,
                              codec := "aac", bitrate := "128k",
                              duration := (130 : ℚ) },
              duration := (130 : ℚ) },
    bg := { width := 1920, height := 1080, vcodec := "h264",
            pixfmt := "yuv420p", audio := none, duration := (300 : ℚ) },
    outro := { width := 1920, height := 1080, vcodec := "h264",
               pixfmt := "yuv420p",
               audio := some { channels := 2, sampleRate := 44100,
                               codec := "aac", bitrate := "128k",
                               duration := (10 : ℚ) },
               duration := (10 : ℚ) },
    music_dur := (40 : ℚ), drive_file_id := "FID123", yt_video_id := "ytv" }


/-! ## Helper lemmas -/

/-- A full pattern match fixes the length of the matched segment. -/
theorem matchList_length {pat : List (Char → Bool)} {l : List Char}
    (h : matchList pat l = true) : l.length = pat.length := by
  induction pat generalizing l with
  | nil =>
    cases l with
    | nil => rfl
    | cons c cs => simp [matchList] at h
  | cons p ps ih =>
    cases l with
    | nil => simp [matchList] at h
    | cons c cs =>
      simp only [matchList, Bool.and_eq_true] at h
      simp [ih h.2]

/-- A fully matched segment matches the pattern as a list prefix. -/
theorem matchList_matchesPref {pat : List (Char → Bool)} {mid rest : List Char}
    (h : matchList pat mid = true) : matchesPref pat (mid ++ rest) = true := by
  induction pat generalizing mid with
  | nil => simp [matchesPref]
  | cons p ps ih =>
    cases mid with
    | nil => simp [matchList] at h
    | cons c cs =>
      simp only [matchList, Bool.and_eq_true] at h
      simp [matchesPref, h.1, ih h.2]

/-- A prefix match splits the list into a fully matched segment and a
remainder. -/
theorem matchesPref_exists {pat : List (Char → Bool)} {s : List Char}
    (h : matchesPref pat s = true) :
    ∃ mid rest, s = mid ++ rest ∧ matchList pat mid = true := by
  induction pat generalizing s with
  | nil => exact ⟨[], s, rfl, rfl⟩
  | cons p ps ih =>
    cases s with
    | nil => simp [matchesPref] at h
    | cons c cs =>
      simp only [matchesPref, Bool.and_eq_true] at h
      obtain ⟨mid, rest, hcs, hm⟩ := ih h.2
      refine ⟨c :: mid, rest, by simp [hcs], ?_⟩
      simp [matchList, h.1, hm]

/-- The head of `dropWhile p` falsifies `p`. -/
theorem head?_dropWhile_false {p : Char → Bool} {l : List Char} {c : Char}
    (h : (l.dropWhile p).head? = some c) : p c = false := by
  have h' := List.head?_dropWhile_not p l
  rw [h] at h'
  exact h'

/-- Soundness of `searchPat`: a found result is a nonempty maximal run of id
characters sitting right after a full pattern occurrence. -/
theorem searchPat_some {pat : List (Char → Bool)} {s r : List Char}
    (h : searchPat pat s = some r) :
    r ≠ [] ∧ r.all isIdChar = true ∧
    ∃ pre mid post, s = pre ++ mid ++ (r ++ post) ∧ matchList pat mid = true ∧
      (∀ c, post.head? = some c → isIdChar c = false) := by
  induction s with
  | nil => simp [searchPat] at h
  | cons a as ih =>
    simp only [searchPat] at h
    split at h
    · rename_i hcond
      rw [Bool.and_eq_true, Bool.not_eq_true'] at hcond
      obtain ⟨hpref, hemp⟩ := hcond
      obtain ⟨mid, rest, hsplit, hm⟩ := matchesPref_exists hpref
      have hlen : mid.length = pat.length := matchList_length hm
      have hdrop : (a :: as).drop pat.length = rest := by
        rw [hsplit]
        exact List.drop_left' hlen
      rw [Option.some_inj] at h
      subst h
      rw [hdrop] at hemp ⊢
      refine ⟨?_, ?_, [], mid, rest.dropWhile isIdChar, ?_, hm, ?_⟩
      · intro hr
        rw [hr] at hemp
        simp at hemp
      · rw [List.all_eq_true]
        intro x hx
        exact List.mem_takeWhile_imp hx
      · rw [List.takeWhile_append_dropWhile]
        simpa using hsplit
      · intro c hc
        exact head?_dropWhile_false hc
    · rename_i hcond
      obtain ⟨hne, hall, pre, mid, post, heq, hm, hpost⟩ := ih h
      exact ⟨hne, hall, a :: pre, mid, post, by simp [heq], hm, hpost⟩

/-- Completeness of `searchPat`: an empty search result means no pattern
occurrence followed by an id character exists anywhere in the list. -/
theorem searchPat_none {pat : List (Char → Bool)} {s : List Char}
    (h : searchPat pat s = none) : ¬ ContainsPat pat s := by
  induction s with
  | nil =>
    rintro ⟨pre, mid, c, post, heq, -, -⟩
    simp at heq
  | cons a as ih =>
    simp only [searchPat] at h
    split at h
    · simp at h
    · rename_i hcond
      rintro ⟨pre, mid, c, post, heq, hm, hc⟩
      cases pre with
      | nil =>
        rw [List.nil_append] at heq
        apply hcond
        rw [Bool.and_eq_true, Bool.not_eq_true']
        constructor
        · rw [heq]
          exact matchList_matchesPref hm
        · have hdrop : (a :: as).drop pat.length = c :: post := by
            rw [heq]
            exact List.drop_left' (matchList_length hm)
          rw [hdrop, List.takeWhile_cons_of_pos hc]
          simp
      | cons p pre' =>
        rw [List.cons_append, List.cons_append, List.cons.injEq] at heq
        exact ih h ⟨pre', mid, c, post, heq.2, hm, hc⟩

/-- A successful search exhibits a pattern occurrence. -/
theorem searchPat_some_contains {pat : List (Char → Bool)} {s r : List Char}
    (h : searchPat pat s = some r) : ContainsPat pat s := by
  obtain ⟨hne, hall, pre, mid, post, heq, hm, -⟩ := searchPat_some h
  cases r with
  | nil => exact absurd rfl hne
  | cons c r' =>
    refine ⟨pre, mid, c, r' ++ post, by simpa using heq, hm, ?_⟩
    rw [List.all_eq_true] at hall
    exact hall c (by simp)

/-- `Rat.floor` is the `Int.floor` of the rational order. -/
theorem rat_floor_eq_int_floor (q : ℚ) : Rat.floor q = ⌊q⌋ := rfl

/-- `max(1.0, q)` is the identity on values at least one. -/
theorem py_max_one_of_le {music : ℚ} (h : 1 ≤ music) :
    py_max_one music = music := by
  unfold py_max_one
  by_cases h' : music ≤ 1
  · rw [if_pos h', le_antisymm h' h]
  · rw [if_neg h']

/-- For a music bed at least one second long the computed loop count covers
the ceiling of the duration ratio. -/
theorem ceil_le_music_loops {main music : ℚ} (h : 1 ≤ music) :
    ⌈main / music⌉ ≤ music_loops main music := by
  unfold music_loops
  rw [py_max_one_of_le h, rat_floor_eq_int_floor]
  have hc : ⌈main / music⌉ ≤ ⌊main / music⌋ + 1 := Int.ceil_le_floor_add_one _
  by_cases hb : ⌊main / music⌋ + 1 ≤ 1
  · rw [if_pos hb]
    exact le_trans hc hb
  · rw [if_neg hb]
    exact hc

/-! ## Claim theorems -/

/-- Claim C1: the Normalization Stage is claimed to scale and pad every main
clip whose probed height differs from the canonical 1080 so that the result
always probes 1920x1080.  The code tests the height against 720 instead, so
a 1280x720 main clip passes through unchanged and the normalized file probes
1280x720, not the canonical 1920x1080. -/
theorem normalize_720_bug :
    get_video_resolution (normalize_geometry
      { width := 1280, height := 720, vcodec := "h264", pixfmt := "yuv420p",
        audio := none, duration := (60 : ℚ) }) = (1280, 720) ∧
    ((1280, 720) : Nat × Nat) ≠ (1920, 1080) := by
  exact ⟨rfl, by decide⟩

/-- Claim C2 (amended): in the simple-mix recipe, when the music bed is
strictly shorter than the main clip and the main duration is nonzero, the
computed loop count is `max(1, floor(main / max(1, music)) + 1)` and the
looped track is cut at exactly `main + 1` seconds; whenever the music bed
lasts at least one second this count is at least `ceil(main / music)`.  When
the music is at least as long as the main clip, or the main duration is
zero, the bed is re-encoded as is. -/
theorem music_recipe_spec (main music : ℚ) :
    ((music ≥ main ∨ main = 0) →
      music_recipe main music = MusicRecipe.reencode) ∧
    (music < main → main ≠ 0 → 1 ≤ music →
      music_recipe main music =
        MusicRecipe.loopTrim (music_loops main music) (main + 1) ∧
      ⌈main / music⌉ ≤ music_loops main music) := by
  constructor
  · intro h
    unfold music_recipe
    rw [if_pos h]
  · intro h1 h2 h3
    have hcond : ¬(music ≥ main ∨ main = 0) := by
      push_neg
      exact ⟨h1, h2⟩
    refine ⟨?_, ceil_le_music_loops h3⟩
    unfold music_recipe
    rw [if_neg hcond]

/-- Claim C2 witness: for a 130 s main clip over a 40 s music bed the loop
branch computes 4 loops, at least `ceil(130 / 40)`, with the 131 s trim. -/
theorem music_recipe_spec_witness :
    music_recipe 130 40 = MusicRecipe.loopTrim 4 131 ∧
    ⌈(130 : ℚ) / 40⌉ ≤ 4 := by
  obtain ⟨hr, hc⟩ :=
    (music_recipe_spec 130 40).2 (by norm_num) (by norm_num) (by norm_num)
  have hl : music_loops 130 40 = 4 := by
    have hp : py_max_one 40 = 40 := by norm_num [py_max_one]
    have hf : Rat.floor ((130 : ℚ) / py_max_one 40) = 3 := by
      rw [hp, rat_floor_eq_int_floor]
      norm_num [Int.floor_eq_iff]
    simp only [music_loops, hf]
    norm_num
  rw [hl] at hr hc
  norm_num at hr
  exact ⟨hr, hc⟩

/-- Claim C2 counterexample: for a 10 s main clip over a 0.5 s music bed the
loop branch applies but computes only 11 loops, strictly below
`ceil(10 / 0.5) = 20`, because the divisor is clamped at one second. -/
theorem music_loop_counterexample :
    music_recipe 10 (1/2) = MusicRecipe.loopTrim 11 11 ∧
    (11 : ℤ) < ⌈(10 : ℚ) / (1/2)⌉ := by
  constructor
  · have hp : py_max_one (1/2) = 1 := by norm_num [py_max_one]
    have hf : Rat.floor ((10 : ℚ) / py_max_one (1/2)) = 10 := by
      rw [hp, rat_floor_eq_int_floor]
      norm_num [Int.floor_eq_iff]
    have hl : music_loops 10 (1/2) = 11 := by
      simp only [music_loops, hf]
      norm_num
    unfold music_recipe
    rw [if_neg (by norm_num), hl]
    norm_num
  · rw [Int.lt_ceil]
    norm_num

/-- Claim C3: identifier extraction returns a bare 20-plus-character id of
the restricted class whole; any other successful result is the exact maximal
id-character substring following an occurrence of the path segment pattern
or of the query parameter pattern; and it fails (InvalidIdentifier) exactly
on the strings matching none of the three patterns. -/
theorem parse_drive_id_spec (s : List Char) :
    (IsBareId s → parse_drive_id s = some s) ∧
    (parse_drive_id s = none ↔
      ¬(IsBareId s ∨ ContainsPat fileDPat s ∨ ContainsPat queryPat s)) ∧
    (∀ r, parse_drive_id s = some r →
      (IsBareId s ∧ r = s) ∨
      (r ≠ [] ∧ r.all isIdChar = true ∧
        ((∃ pre mid post, s = pre ++ mid ++ (r ++ post) ∧
            matchList fileDPat mid = true ∧
            (∀ c, post.head? = some c → isIdChar c = false)) ∨
         (∃ pre mid post, s = pre ++ mid ++ (r ++ post) ∧
            matchList queryPat mid = true ∧
            (∀ c, post.head? = some c → isIdChar c = false))))) := by
  have hbare : (s.all isIdChar && decide (20 ≤ s.length)) = true ↔ IsBareId s := by
    rw [Bool.and_eq_true, decide_eq_true_iff]
    exact Iff.rfl
  by_cases hb : (s.all isIdChar && decide (20 ≤ s.length)) = true
  · have hB : IsBareId s := hbare.mp hb
    have hp : parse_drive_id s = some s := by
      unfold parse_drive_id
      rw [if_pos hb]
    refine ⟨fun _ => hp, ?_, ?_⟩
    · rw [hp]
      constructor
      · intro h'
        simp at h'
      · intro hn
        exact absurd (Or.inl hB) hn
    · intro r hr
      rw [hp, Option.some_inj] at hr
      exact Or.inl ⟨hB, hr.symm⟩
  · have hnB : ¬ IsBareId s := fun h => hb (hbare.mpr h)
    cases e1 : searchPat fileDPat s with
    | some r1 =>
      have hp1 : parse_drive_id s = some r1 := by
        unfold parse_drive_id
        rw [if_neg hb]
        simp only [e1]
      refine ⟨fun h => absurd h hnB, ?_, ?_⟩
      · rw [hp1]
        constructor
        · intro h'
          simp at h'
        · intro hn
          exact absurd (Or.inr (Or.inl (searchPat_some_contains e1))) hn
      · intro r hr
        rw [hp1, Option.some_inj] at hr
        subst hr
        obtain ⟨hne, hall, pre, mid, post, heq, hm, hpost⟩ := searchPat_some e1
        exact Or.inr ⟨hne, hall, Or.inl ⟨pre, mid, post, heq, hm, hpost⟩⟩
    | none =>
      cases e2 : searchPat queryPat s with
      | some r2 =>
        have hp2 : parse_drive_id s = some r2 := by
          unfold parse_drive_id
          rw [if_neg hb]
          simp only [e1, e2]
        refine ⟨fun h => absurd h hnB, ?_, ?_⟩
        · rw [hp2]
          constructor
          · intro h'
            simp at h'
          · intro hn
            exact absurd (Or.inr (Or.inr (searchPat_some_contains e2))) hn
        · intro r hr
          rw [hp2, Option.some_inj] at hr
          subst hr
          obtain ⟨hne, hall, pre, mid, post, heq, hm, hpost⟩ := searchPat_some e2
          exact Or.inr ⟨hne, hall, Or.inr ⟨pre, mid, post, heq, hm, hpost⟩⟩
      | none =>
        have hpn : parse_drive_id s = none := by
          unfold parse_drive_id
          rw [if_neg hb]
          simp only [e1, e2]
        refine ⟨fun h => absurd h hnB, ?_, ?_⟩
        · rw [hpn]
          simp only [true_iff]
          rintro (h | h | h)
          · exact hnB h
          · exact searchPat_none e1 h
          · exact searchPat_none e2 h
        · intro r hr
          rw [hpn] at hr
          exact absurd hr (by simp)

/-- Claim C3 witness: a concrete 20-character bare id is returned whole. -/
theorem parse_drive_id_spec_witness :
    parse_drive_id "ABCDEFGHIJ0123456789".data =
      some "ABCDEFGHIJ0123456789".data :=
  (parse_drive_id_spec "ABCDEFGHIJ0123456789".data).1 ⟨by decide, by decide⟩

/-- Claim C4: the simple mix is claimed to be normalized to avoid clipping,
equivalent to averaging the two signals, but the filter string the code
builds disables the amix normalization (`normalize=0`), so two full-scale
samples sum to 2 where the claimed averaging mix yields 1. -/
theorem amix_not_normalized :
    amix_normalize_enabled audio_mix_filter.data = false ∧
    amix_sample (amix_normalize_enabled audio_mix_filter.data) 1 1 = 2 ∧
    amix_sample true 1 1 = 1 := by
  have h : amix_normalize_enabled audio_mix_filter.data = false := by decide
  refine ⟨h, ?_, ?_⟩
  · rw [h]
    unfold amix_sample
    norm_num
  · unfold amix_sample
    norm_num

/-- Claim C5 (amended): every asset download check (the Drive download, the
three object-store downloads, and the basic-checks loop) fails exactly on a
missing or zero-byte file, and every acquisition failure is the
empty-or-corrupt download error; files of any nonzero size pass. -/
theorem acquisition_empty_check (dl : Downloads) :
    (acquisition dl = Except.ok () ↔
      (dl.mainExists = true ∧ dl.mainSize ≠ 0 ∧ dl.bgExists = true ∧
       dl.bgSize ≠ 0 ∧ dl.outroExists = true ∧ dl.outroSize ≠ 0 ∧
       dl.musicExists = true ∧ dl.musicSize ≠ 0)) ∧
    (∀ e, acquisition dl = Except.error e →
      e = JobError.emptyOrCorruptDownload) := by
  obtain ⟨me, ms, be, bs, oe, os, ue, us⟩ := dl
  cases me <;> cases be <;> cases oe <;> cases ue <;>
    by_cases h1 : ms = 0 <;> by_cases h2 : bs = 0 <;>
    by_cases h3 : os = 0 <;> by_cases h4 : us = 0 <;>
    simp_all [acquisition, drive_dl_check, gcs_dl_check]

/-- Claim C5 witness: four one-byte downloads pass acquisition. -/
theorem acquisition_empty_check_witness :
    acquisition
      { mainExists := true, mainSize := 1, bgExists := true, bgSize := 1,
        outroExists := true, outroSize := 1, musicExists := true,
        musicSize := 1 } = Except.ok () :=
  (acquisition_empty_check
    { mainExists := true, mainSize := 1, bgExists := true, bgSize := 1,
      outroExists := true, outroSize := 1, musicExists := true,
      musicSize := 1 }).1.mpr (by decide)

/-- Claim C5 counterexample: a 500000-byte file is below the claimed
roughly-1MB floor yet passes the per-download checks and the whole
acquisition silently. -/
theorem download_floor_counterexample :
    drive_dl_check true 500000 = Except.ok () ∧
    gcs_dl_check true 500000 = Except.ok () ∧
    acquisition
      { mainExists := true, mainSize := 500000, bgExists := true,
        bgSize := 500000, outroExists := true, outroSize := 500000,
        musicExists := true, musicSize := 500000 } = Except.ok () ∧
    500000 < 1048576 := by decide

/-- Claim C6: when the main clip has no audio stream, the normalization step
applies the silent-audio synthesis, which adds a stereo 44100 Hz aac track
at 192k whose duration is the video's own duration, leaves the video stream
untouched, and makes `has_audio` true; the argument list built by the source
carries exactly those parameters (`anullsrc` stereo 44100, `-shortest`,
`-c:v copy`, `-c:a aac -b:a 192k`). -/
theorem silent_audio_synthesis (f : AVFile) (h : has_audio f = false) :
    ensure_audio f = add_silent_audio f ∧
    (ensure_audio f).audio =
      some { channels := 2, sampleRate := 44100, codec := "aac",
             bitrate := "192k", duration := f.duration } ∧
    (ensure_audio f).width = f.width ∧
    (ensure_audio f).height = f.height ∧
    (ensure_audio f).vcodec = f.vcodec ∧
    (ensure_audio f).pixfmt = f.pixfmt ∧
    (ensure_audio f).duration = f.duration ∧
    has_audio (ensure_audio f) = true ∧
    "-shortest" ∈ add_silent_audio_args "main.mp4" "main_with_audio.mp4" ∧
    "anullsrc=channel_layout=stereo:sample_rate=44100" ∈
      add_silent_audio_args "main.mp4" "main_with_audio.mp4" ∧
    argAfter "-c:v" (add_silent_audio_args "main.mp4" "main_with_audio.mp4") =
      some "copy" ∧
    argAfter "-c:a" (add_silent_audio_args "main.mp4" "main_with_audio.mp4") =
      some "aac" ∧
    argAfter "-b:a" (add_silent_audio_args "main.mp4" "main_with_audio.mp4") =
      some "192k" := by
  have he : ensure_audio f = add_silent_audio f := by
    unfold ensure_audio
    rw [h]
    simp
  refine ⟨he, ?_, ?_, ?_, ?_, ?_, ?_, ?_, by decide, by decide, by decide,
    by decide, by decide⟩ <;>
    simp [he, add_silent_audio, has_audio]

/-- Claim C6 witness: a concrete video-only container has audio after the
synthesis step. -/
theorem silent_audio_synthesis_witness :
    has_audio (ensure_audio
      { width := 1280, height := 720, vcodec := "h264", pixfmt := "yuv420p",
        audio := none, duration := (60 : ℚ) }) = true :=
  (silent_audio_synthesis
    { width := 1280, height := 720, vcodec := "h264", pixfmt := "yuv420p",
      audio := none, duration := (60 : ℚ) } rfl).2.2.2.2.2.2.2.1

/-- Claim C7: on a successful publication each field of the result record is
non-null exactly when its sink was configured (drive not skipped, bucket and
prefix both nonempty, title given); publication fails only when the drive
sink is enabled with an unset folder id, so an unconfigured sink never fails
the job; and in the object-store-only configuration the result has exactly
the object-store field non-null. -/
theorem publication_fields (env : Env) (driveId : String)
    (title thumb : Option String) (thumbOk : Bool) (ytVid : String) :
    (∀ r, publication env driveId title thumb thumbOk ytVid = Except.ok r →
      ((r.drive ≠ none ↔ env.skip_drive_upload = false) ∧
       (r.gcs ≠ none ↔ (env.gcs_outputs_bucket ≠ "" ∧ env.gcs_outputs_pfx ≠ "")) ∧
       (r.youtube ≠ none ↔ truthyOpt title = true))) ∧
    ((∃ e, publication env driveId title thumb thumbOk ytVid = Except.error e) ↔
      (env.skip_drive_upload = false ∧
       truthyOpt env.drive_output_folder_id = false)) ∧
    (env.skip_drive_upload = true → truthyOpt title = false →
      env.gcs_outputs_bucket ≠ "" → env.gcs_outputs_pfx ≠ "" →
      publication env driveId title thumb thumbOk ytVid =
        Except.ok
          ⟨none,
           some ("gs://" ++ env.gcs_outputs_bucket ++ "/" ++ gcs_object_key env.gcs_outputs_pfx none),
           none⟩) := by
  cases hs : env.skip_drive_upload <;>
  cases hf : truthyOpt env.drive_output_folder_id <;>
  by_cases hb : env.gcs_outputs_bucket = "" <;>
  by_cases hp : env.gcs_outputs_pfx = "" <;>
  cases ht : truthyOpt title <;>
    simp_all [publication, upload_drive_step, upload_gcs, Except.map]

/-- Claim C7 witness: with only the object store configured the result has
exactly one non-null field. -/
theorem publication_fields_witness :
    publication
      { drive_output_folder_id := none, skip_drive_upload := true,
        gcs_outputs_bucket := "bkt", gcs_outputs_pfx := "out" }
      "D" none none false "V" =
      Except.ok
        { drive := none, gcs := some "gs://bkt/out/final_output.mp4",
          youtube := none } := by
  have h := (publication_fields
    { drive_output_folder_id := none, skip_drive_upload := true,
      gcs_outputs_bucket := "bkt", gcs_outputs_pfx := "out" }
    "D" none none false "V").2.2 rfl rfl (by decide) (by decide)
  rw [h]
  decide

/-- Claim C8: the thumbnail attach in `upload_youtube` is best-effort: with
a thumbnail provided, the publish returns the uploaded video's id and url
whether the thumbnail-set call succeeds or fails. -/
theorem thumbnail_best_effort (vid thumb : String) (thumbOk : Bool) :
    upload_youtube vid (some thumb) thumbOk =
      { id := vid, url := youtube_url vid } ∧
    upload_youtube vid (some thumb) false =
      upload_youtube vid (some thumb) true := by
  cases thumbOk <;> exact ⟨rfl, rfl⟩

/-- Claim C9: the object-store upload runs exactly when both the outputs
bucket and the outputs prefix are nonempty, and the object key is the
slash-stripped prefix, a slash, then the drive upload's returned id when a
drive upload was performed and the literal stem `final_output` otherwise,
with the `.mp4` suffix. -/
theorem gcs_key_spec (env : Env) (driveId : String)
    (title thumb : Option String) (thumbOk : Bool) (ytVid : String) :
    (∀ r, publication env driveId title thumb thumbOk ytVid = Except.ok r →
      ((r.gcs = none ↔ (env.gcs_outputs_bucket = "" ∨ env.gcs_outputs_pfx = "")) ∧
       (env.gcs_outputs_bucket ≠ "" → env.gcs_outputs_pfx ≠ "" →
         r.gcs = some ("gs://" ++ env.gcs_outputs_bucket ++ "/" ++
           gcs_object_key env.gcs_outputs_pfx r.drive)))) ∧
    (∀ pfx id', gcs_object_key pfx (some id') =
      stripSlashes pfx ++ "/" ++ (id' ++ ".mp4")) ∧
    (∀ pfx, gcs_object_key pfx none =
      stripSlashes pfx ++ "/" ++ "final_output.mp4") := by
  refine ⟨?_, fun pfx id' => rfl, fun pfx => rfl⟩
  intro r hr
  cases hs : env.skip_drive_upload <;>
  cases hf : truthyOpt env.drive_output_folder_id <;>
  by_cases hb : env.gcs_outputs_bucket = "" <;>
  by_cases hp : env.gcs_outputs_pfx = "" <;>
    simp_all [publication, upload_drive_step, upload_gcs, Except.map] <;>
    (subst hr; simp_all)

/-- Claim C9 witness: a prefix with a trailing slash and a drive id produce
the expected object key. -/
theorem gcs_key_spec_witness :
    gcs_object_key "out/" (some "ABC") = "out/ABC.mp4" := by
  have h := (gcs_key_spec
    { drive_output_folder_id := none, skip_drive_upload := true,
      gcs_outputs_bucket := "", gcs_outputs_pfx := "" }
    "D" none none false "V").2.1 "out/" "ABC"
  rw [h]
  decide

/-- Claim C10: with the drive sink enabled but the folder id unset, a job
whose identifier parses and whose downloads validate runs the whole media
pipeline (the final artifact is produced) and only then fails with the
folder-unset error at upload time, not before any stage executes. -/
theorem late_drive_failure (env : Env) (url : List Char) (inp : JobInputs)
    (title thumb : Option String) (thumbOk : Bool)
    (hskip : env.skip_drive_upload = false)
    (hfolder : truthyOpt env.drive_output_folder_id = false)
    (hurl : parse_drive_id url ≠ none)
    (hdl : acquisition inp.dl = Except.ok ()) :
    process env url inp title thumb thumbOk =
      ⟨some (final_artifact inp), Except.error JobError.driveFolderUnset⟩ := by
  obtain ⟨fid, hfid⟩ := Option.ne_none_iff_exists'.mp hurl
  have hpub : publication env inp.drive_file_id title thumb thumbOk
      inp.yt_video_id = Except.error JobError.driveFolderUnset := by
    simp [publication, upload_drive_step, hskip, hfolder, Except.map]
  simp [process, hfid, hdl, hpub]

/-- Claim C10 witness: a concrete enabled-but-unconfigured drive sink fails
at upload time with the full artifact already produced. -/
theorem late_drive_failure_witness :
    process env_noFolder "ABCDEFGHIJKLMNOPQRSTU".data sample_inputs
      none none false =
      ⟨some (final_artifact sample_inputs),
       Except.error JobError.driveFolderUnset⟩ :=
  late_drive_failure env_noFolder "ABCDEFGHIJKLMNOPQRSTU".data sample_inputs
    none none false rfl rfl (by decide) (by decide)

end VideoJob
